import Mathlib

/-!
Verification development for the HeeksCNC probing-cycle module (`src/Probing.h`).

The repository fragment is a declarative header: the enums, the inline
constructors of `CProbing`, `CProbe_Centre` and `CProbe_Edge` are present in
the source and are embedded here directly.  The geometric reduction
(`ReduceCentre`, `ReduceEdge`), waypoint planning and serialization bodies are
not part of the supplied source; they are modelled from the specification and
each such definition carries a doc comment saying so.

Machine doubles are embedded as rationals (`ℚ`), exact for every value the
source constructors and the specification examples use.  Angles, which are
transcendental, are embedded as real numbers.
-/

namespace HeeksProbing

/-- A 3D coordinate, mirroring `CNCPoint` (x, y, z as machine numbers). -/
structure CNCPoint where
  x : ℚ
  y : ℚ
  z : ℚ
deriving DecidableEq, Repr

/-- Midpoint of two points, componentwise average. -/
def CNCPoint.mid (p q : CNCPoint) : CNCPoint :=
  ⟨(p.x + q.x) / 2, (p.y + q.y) / 2, (p.z + q.z) / 2⟩

/-- Centroid (componentwise average) of four points. -/
def centroid4 (p1 p2 p3 p4 : CNCPoint) : CNCPoint :=
  ⟨(p1.x + p2.x + p3.x + p4.x) / 4,
   (p1.y + p2.y + p3.y + p4.y) / 4,
   (p1.z + p2.z + p3.z + p4.z) / 4⟩

/-- Errors of the geometric reduction, from the specification's error model. -/
inductive ProbeError where
  | insufficientPoints
  | parallelEdges
deriving DecidableEq, Repr

/-- Modelled from the spec: `ReduceCentre(points) → Point` (the body is not in
the supplied source, only `CProbe_Centre`'s declaration is).  For a 2-point
probe it returns the midpoint of the two contact points; for a 4-point probe
the midpoint of each opposing pair averaged (the pairs arriving as the first
two and last two contacts).  It fails with `InsufficientPointsError` when the
supplied point count does not match the configured `numberOfPoints`. -/
def ReduceCentre (numberOfPoints : ℕ) (points : List CNCPoint) :
    Except ProbeError CNCPoint :=
  if points.length ≠ numberOfPoints then .error .insufficientPoints
  else
    match points with
    | [p1, p2] => .ok (p1.mid p2)
    | [p1, p2, p3, p4] => .ok ((p1.mid p2).mid (p3.mid p4))
    | _ => .error .insufficientPoints

/-- Modelled from the spec: the angle, in degrees, of the line through two
contact points relative to the machine X axis, normalized to [-90°, 90°).
A vertical line (no X extent) gets -90°, the only representative of verticality
inside the half-open normalized range; every other line gets the arctangent of
its slope, which lies strictly inside (-90°, 90°). -/
noncomputable def fittedAngleDeg (p q : CNCPoint) : ℝ :=
  if q.x - p.x = 0 then -90
  else Real.arctan (((q.y - p.y : ℚ) : ℝ) / ((q.x - p.x : ℚ) : ℝ)) * (180 / Real.pi)

/-- Determinant of the 2×2 linear system intersecting the line through
`p1, p2` with the line through `p3, p4` (the cross product of the two
direction vectors); zero exactly when the lines are parallel. -/
def lineDet (p1 p2 p3 p4 : CNCPoint) : ℚ :=
  (p2.x - p1.x) * (p4.y - p3.y) - (p4.x - p3.x) * (p2.y - p1.y)

/-- Modelled from the spec: intersection point of the line through `p1, p2`
and the line through `p3, p4`, by Cramer's rule on the system
`dy·x - dx·y = dy·x₁ - dx·y₁` for each line.  Only meaningful when
`lineDet p1 p2 p3 p4 ≠ 0`; the z coordinate (probing happens in one XY plane)
is reported as 0. -/
def lineIntersect (p1 p2 p3 p4 : CNCPoint) : CNCPoint :=
  let a1 := p2.y - p1.y
  let b1 := -(p2.x - p1.x)
  let c1 := a1 * p1.x + b1 * p1.y
  let a2 := p4.y - p3.y
  let b2 := -(p4.x - p3.x)
  let c2 := a2 * p3.x + b2 * p3.y
  let det := a1 * b2 - a2 * b1
  ⟨(c1 * b2 - c2 * b1) / det, (a1 * c2 - a2 * c1) / det, 0⟩

/-- Result of a successful edge reduction: one fitted angle per edge, and the
corner intersection point when two edges were probed. -/
structure EdgeResult where
  angles : List ℝ
  intersection : Option CNCPoint

/-- Modelled from the spec: `ReduceEdge(points, numberOfEdges)` (the body is
not in the supplied source, only `CProbe_Edge`'s declaration is).  It fits a
line through each edge's 2 contact points and reports its angle; with two
edges it additionally intersects the two fitted lines, failing with
`ParallelEdgesError` when the determinant of the 2×2 system is within the
configured tolerance of zero, and failing with `InsufficientPointsError` when
fewer than 2 (respectively 4) contact points are supplied. -/
noncomputable def ReduceEdge (numberOfEdges : ℕ) (tolerance : ℚ)
    (points : List CNCPoint) : Except ProbeError EdgeResult :=
  match numberOfEdges, points with
  | 1, p1 :: p2 :: _ => .ok ⟨[fittedAngleDeg p1 p2], none⟩
  | 2, p1 :: p2 :: p3 :: p4 :: _ =>
      if |lineDet p1 p2 p3 p4| ≤ tolerance then .error .parallelEdges
      else .ok ⟨[fittedAngleDeg p1 p2, fittedAngleDeg p3 p4],
                some (lineIntersect p1 p2 p3 p4)⟩
  | _, _ => .error .insufficientPoints

/-- `CProbing::eCorners_t` from the source (values 0..3 in declaration order). -/
inductive eCorners_t where
  | eBottomLeft
  | eBottomRight
  | eTopLeft
  | eTopRight
deriving DecidableEq, Repr

/-- `CProbing::eEdges_t` from the source (values 0..3 in declaration order). -/
inductive eEdges_t where
  | eBottom
  | eTop
  | eLeft
  | eRight
deriving DecidableEq, Repr

/-- `CProbing::eProbeDirection_t` from the source: `eInside = 0`, `eOutside`. -/
inductive eProbeDirection_t where
  | eInside
  | eOutside
deriving DecidableEq, Repr

/-- The integer value of an `eProbeDirection_t`, as the C++ enum assigns it. -/
def eProbeDirection_t.toInt : eProbeDirection_t → ℤ
  | .eInside => 0
  | .eOutside => 1

/-- Modelled from the spec: the external cutting-tool record
(`CCuttingToolParams`), of which the probing constructor reads only the tool
type and the tool length offset.  Only the touch-probe distinction matters
here; the other tool types are collapsed into representative constructors. -/
inductive eToolType where
  | eDrill
  | eEndmill
  | eTouchProbe
deriving DecidableEq, Repr

/-- Modelled from the spec: the fields of the external `CCuttingTool` that
`CProbing::CProbing` dereferences (`m_params.m_type`,
`m_params.m_tool_length_offset`). -/
structure CCuttingTool where
  m_type : eToolType
  m_tool_length_offset : ℚ
deriving DecidableEq, Repr

/-- The mutable fields of a `CProbing` object that its constructor touches:
the inherited spindle speed and active flag, plus `m_depth` and `m_distance`. -/
structure CProbingState where
  m_spindle_speed : ℚ
  m_active : ℤ
  m_depth : ℚ
  m_distance : ℚ
deriving DecidableEq, Repr

/-- `CProbing::CProbing(title, cutting_tool_number)` from the source.  `base`
is the object state as the external `CSpeedOp(title, cutting_tool_number)`
base-class constructor left it (arbitrary, since that constructor is outside
this fragment) and `find` is the injected external `CCuttingTool::Find`
lookup.  The body then forces the spindle speed and active flag to 0, sets
`m_depth = 10.0` and `m_distance = 50.0`, and, when the cutting tool number
resolves to an existing touch-probe tool, overrides `m_depth` with half that
tool's length offset. -/
def CProbing.construct (base : CProbingState) (find : ℤ → Option CCuttingTool)
    (title : String) (cutting_tool_number : ℤ) : CProbingState :=
  let _ := title
  let s : CProbingState :=
    { base with m_spindle_speed := 0, m_active := 0, m_depth := 10, m_distance := 50 }
  match find cutting_tool_number with
  | some pCuttingTool =>
      if pCuttingTool.m_type = eToolType.eTouchProbe then
        { s with m_depth := pCuttingTool.m_tool_length_offset / 2 }
      else s
  | none => s

/-- The fields of a `CProbe_Centre` object: the inherited `CProbing` state plus
`m_direction` (a C++ `int` really holding an `eProbeDirection_t`) and
`m_number_of_points` (a C++ `int`, 2 or 4 only). -/
structure CProbe_CentreState where
  probing : CProbingState
  m_direction : ℤ
  m_number_of_points : ℤ
deriving DecidableEq, Repr

/-- `CProbe_Centre::CProbe_Centre(cutting_tool_number)` from the source: runs
the `CProbing` constructor with title "Probe Centre", then sets
`m_direction = int(eOutside)` and `m_number_of_points = 2`. -/
def CProbe_Centre.construct (base : CProbingState)
    (find : ℤ → Option CCuttingTool) (cutting_tool_number : ℤ) :
    CProbe_CentreState :=
  { probing := CProbing.construct base find "Probe Centre" cutting_tool_number
    m_direction := eProbeDirection_t.eOutside.toInt
    m_number_of_points := 2 }

/-- The fields of a `CProbe_Edge` object: the inherited `CProbing` state plus
`m_retract`, `m_number_of_edges` (a C++ `unsigned int`, 1 or 2 only),
`m_edge` and `m_corner`. -/
structure CProbe_EdgeState where
  probing : CProbingState
  m_retract : ℚ
  m_number_of_edges : ℕ
  m_edge : eEdges_t
  m_corner : eCorners_t
deriving DecidableEq, Repr

/-- `CProbe_Edge::CProbe_Edge(cutting_tool_number)` from the source: runs the
`CProbing` constructor with title "Probe Edge", then sets `m_retract = 5.0`,
`m_number_of_edges = 2`, `m_edge = eBottom`, `m_corner = eBottomLeft`. -/
def CProbe_Edge.construct (base : CProbingState)
    (find : ℤ → Option CCuttingTool) (cutting_tool_number : ℤ) :
    CProbe_EdgeState :=
  { probing := CProbing.construct base find "Probe Edge" cutting_tool_number
    m_retract := 5
    m_number_of_edges := 2
    m_edge := eEdges_t.eBottom
    m_corner := eCorners_t.eBottomLeft }

/-- Modelled from the spec: `ProbeCentreConfig` — probing direction and number
of contact points (2 or 4). -/
structure ProbeCentreConfig where
  direction : eProbeDirection_t
  numberOfPoints : ℕ
deriving DecidableEq, Repr

/-- Modelled from the spec: `ProbeEdgeConfig` — retract distance, number of
edges (1 or 2), the edge probed when there is one, the corner probed when
there are two. -/
structure ProbeEdgeConfig where
  retractDistance : ℚ
  numberOfEdges : ℕ
  edge : eEdges_t
  corner : eCorners_t
deriving DecidableEq, Repr

/-- Modelled from the spec: `ProbingRun` — plunge depth, outward start
distance and horizontal probing feed rate. -/
structure ProbingRun where
  depth : ℚ
  startDistance : ℚ
  feedRate : ℚ
deriving DecidableEq, Repr

/-- A field value in a serialized record: machine integers or machine numbers,
tagged so that decoding is exact. -/
inductive AttrValue where
  | intVal (i : ℤ)
  | natVal (n : ℕ)
  | numVal (q : ℚ)
deriving DecidableEq, Repr

/-- Serialized form: an ordered record of named attributes, the structured
representation the spec's persistence layer reads and writes. -/
def AttrRecord : Type := List (String × AttrValue)

/-- Integer code of an `eEdges_t`, as the C++ enum assigns it. -/
def eEdges_t.toInt : eEdges_t → ℤ
  | .eBottom => 0
  | .eTop => 1
  | .eLeft => 2
  | .eRight => 3

/-- Decode an `eEdges_t` from its integer code. -/
def eEdges_t.ofInt : ℤ → Option eEdges_t
  | 0 => some .eBottom
  | 1 => some .eTop
  | 2 => some .eLeft
  | 3 => some .eRight
  | _ => none

/-- Integer code of an `eCorners_t`, as the C++ enum assigns it. -/
def eCorners_t.toInt : eCorners_t → ℤ
  | .eBottomLeft => 0
  | .eBottomRight => 1
  | .eTopLeft => 2
  | .eTopRight => 3

/-- Decode an `eCorners_t` from its integer code. -/
def eCorners_t.ofInt : ℤ → Option eCorners_t
  | 0 => some .eBottomLeft
  | 1 => some .eBottomRight
  | 2 => some .eTopLeft
  | 3 => some .eTopRight
  | _ => none

/-- Decode an `eProbeDirection_t` from its integer code. -/
def eProbeDirection_t.ofInt : ℤ → Option eProbeDirection_t
  | 0 => some .eInside
  | 1 => some .eOutside
  | _ => none

/-- Modelled from the spec: serialization of a `ProbeCentreConfig` as a
structured record (`CProbe_Centre::WriteXML` has no body in the fragment; the
exact on-disk schema is out of the spec's scope, every §3 field is written). -/
def serializeCentreConfig (c : ProbeCentreConfig) : AttrRecord :=
  [("direction", .intVal c.direction.toInt),
   ("number_of_points", .natVal c.numberOfPoints)]

/-- Modelled from the spec: deserialization of a `ProbeCentreConfig`
(`CProbe_Centre::ReadFromXMLElement` has no body in the fragment). -/
def deserializeCentreConfig : AttrRecord → Option ProbeCentreConfig
  | [("direction", .intVal d), ("number_of_points", .natVal n)] =>
      (eProbeDirection_t.ofInt d).map (fun dir => ⟨dir, n⟩)
  | _ => none

/-- Modelled from the spec: serialization of a `ProbeEdgeConfig` as a
structured record writing every §3 field. -/
def serializeEdgeConfig (c : ProbeEdgeConfig) : AttrRecord :=
  [("retract", .numVal c.retractDistance),
   ("number_of_edges", .natVal c.numberOfEdges),
   ("edge", .intVal c.edge.toInt),
   ("corner", .intVal c.corner.toInt)]

/-- Modelled from the spec: deserialization of a `ProbeEdgeConfig`. -/
def deserializeEdgeConfig : AttrRecord → Option ProbeEdgeConfig
  | [("retract", .numVal r), ("number_of_edges", .natVal n),
     ("edge", .intVal e), ("corner", .intVal c)] =>
      match eEdges_t.ofInt e, eCorners_t.ofInt c with
      | some edge, some corner => some ⟨r, n, edge, corner⟩
      | _, _ => none
  | _ => none

/-- Modelled from the spec: serialization of a `ProbingRun` as a structured
record writing every §3 field (`CProbing::WriteBaseXML` has no body in the
fragment). -/
def serializeProbingRun (r : ProbingRun) : AttrRecord :=
  [("depth", .numVal r.depth),
   ("distance", .numVal r.startDistance),
   ("feed_rate", .numVal r.feedRate)]

/-- Modelled from the spec: deserialization of a `ProbingRun`
(`CProbing::ReadBaseXML` has no body in the fragment). -/
def deserializeProbingRun : AttrRecord → Option ProbingRun
  | [("depth", .numVal d), ("distance", .numVal s), ("feed_rate", .numVal f)] =>
      some ⟨d, s, f⟩
  | _ => none

/-- A single planned machine motion of a centre-probing cycle. -/
inductive Waypoint where
  | rapidOut (target : CNCPoint)
  | plunge (target : CNCPoint)
  | probe (target : CNCPoint)
  | retract (target : CNCPoint)
deriving DecidableEq, Repr

/-- Modelled from the spec: the unit approach directions of a centre probe,
evenly spaced around the current position — 180° apart along one axis for a
2-point probe, 90° apart along both axes for a 4-point probe. -/
def approachDirs (numberOfPoints : ℕ) : List (ℚ × ℚ) :=
  if numberOfPoints = 2 then [(1, 0), (-1, 0)]
  else if numberOfPoints = 4 then [(1, 0), (-1, 0), (0, 1), (0, -1)]
  else []

/-- Modelled from the spec: the four waypoints of one probe approach along
unit direction `d` (`CProbing::AppendTextForSingleProbeOperation` has no body
in the fragment): (a) a rapid move outward by `startDistance` along `d`,
(b) a plunge to `currentZ - depth`, (c) a linear probe move back toward the
centre — its direction reversed, i.e. continuing outward, when the probing
direction is `eInside` — and (d) a retract back to the outward point at the
original Z. -/
def probeApproach (cfg : ProbeCentreConfig) (run : ProbingRun)
    (pos : CNCPoint) (d : ℚ × ℚ) : List Waypoint :=
  let out : CNCPoint :=
    ⟨pos.x + run.startDistance * d.1, pos.y + run.startDistance * d.2, pos.z⟩
  let lowered : CNCPoint := ⟨out.x, out.y, pos.z - run.depth⟩
  let probeTarget : CNCPoint :=
    if cfg.direction = eProbeDirection_t.eInside then
      ⟨pos.x + 2 * run.startDistance * d.1, pos.y + 2 * run.startDistance * d.2,
       pos.z - run.depth⟩
    else ⟨pos.x, pos.y, pos.z - run.depth⟩
  [.rapidOut out, .plunge lowered, .probe probeTarget, .retract out]

/-- Modelled from the spec: `PlanCentreProbe(config, run, currentPosition)` —
one four-step probe approach per configured contact point, concatenated in
the deterministic order of `approachDirs`. -/
def PlanCentreProbe (cfg : ProbeCentreConfig) (run : ProbingRun)
    (pos : CNCPoint) : List Waypoint :=
  ((approachDirs cfg.numberOfPoints).map (probeApproach cfg run pos)).flatten

/-- Modelled from the spec: `ReduceCentre` run against an ambient engine
state.  The spec's engine is purely computational with no shared mutable
state, so the call reads nothing from and writes nothing to the state it runs
in; the wrapper makes that state threading explicit. -/
def ReduceCentreWithState {S : Type} (state : S) (numberOfPoints : ℕ)
    (points : List CNCPoint) : (Except ProbeError CNCPoint) × S :=
  (ReduceCentre numberOfPoints points, state)

/-- Modelled from the spec: `ReduceEdge` run against an ambient engine state;
as with `ReduceCentreWithState`, the state passes through untouched. -/
noncomputable def ReduceEdgeWithState {S : Type} (state : S)
    (numberOfEdges : ℕ) (tolerance : ℚ) (points : List CNCPoint) :
    (Except ProbeError EdgeResult) × S :=
  (ReduceEdge numberOfEdges tolerance points, state)

/-- Modelled from the spec: `CProbe_Centre::MakeACopy`/`CopyFrom` duplicate
every field of the operation object. -/
def CProbe_Centre.makeACopy (s : CProbe_CentreState) : CProbe_CentreState := s

/-- Modelled from the spec: `CProbe_Edge::MakeACopy`/`CopyFrom` duplicate
every field of the operation object. -/
def CProbe_Edge.makeACopy (s : CProbe_EdgeState) : CProbe_EdgeState := s

/-- Modelled from the spec: `CProbe_Centre::WriteXML` writes every field of
the object as a structured record. -/
def CProbe_Centre.writeXML (s : CProbe_CentreState) : AttrRecord :=
  [("spindle_speed", .numVal s.probing.m_spindle_speed),
   ("active", .intVal s.probing.m_active),
   ("depth", .numVal s.probing.m_depth),
   ("distance", .numVal s.probing.m_distance),
   ("direction", .intVal s.m_direction),
   ("number_of_points", .intVal s.m_number_of_points)]

/-- Modelled from the spec: `CProbe_Centre::ReadFromXMLElement` rebuilds the
object from the structured record `WriteXML` produced. -/
def CProbe_Centre.readFromXMLElement : AttrRecord → Option CProbe_CentreState
  | [("spindle_speed", .numVal sp), ("active", .intVal a),
     ("depth", .numVal dep), ("distance", .numVal dist),
     ("direction", .intVal dir), ("number_of_points", .intVal n)] =>
      some ⟨⟨sp, a, dep, dist⟩, dir, n⟩
  | _ => none

/-- Modelled from the spec: `CProbe_Edge::WriteXML` writes every field of the
object as a structured record. -/
def CProbe_Edge.writeXML (s : CProbe_EdgeState) : AttrRecord :=
  [("spindle_speed", .numVal s.probing.m_spindle_speed),
   ("active", .intVal s.probing.m_active),
   ("depth", .numVal s.probing.m_depth),
   ("distance", .numVal s.probing.m_distance),
   ("retract", .numVal s.m_retract),
   ("number_of_edges", .natVal s.m_number_of_edges),
   ("edge", .intVal s.m_edge.toInt),
   ("corner", .intVal s.m_corner.toInt)]

/-- Modelled from the spec: `CProbe_Edge::ReadFromXMLElement` rebuilds the
object from the structured record `WriteXML` produced. -/
def CProbe_Edge.readFromXMLElement : AttrRecord → Option CProbe_EdgeState
  | [("spindle_speed", .numVal sp), ("active", .intVal a),
     ("depth", .numVal dep), ("distance", .numVal dist),
     ("retract", .numVal r), ("number_of_edges", .natVal n),
     ("edge", .intVal e), ("corner", .intVal c)] =>
      match eEdges_t.ofInt e, eCorners_t.ofInt c with
      | some edge, some corner => some ⟨⟨sp, a, dep, dist⟩, r, n, edge, corner⟩
      | _, _ => none
  | _ => none

/-- The `CProbe_Centre` states an operation instance can be in: freshly
constructed, copied from a reachable instance, or read back from a reachable
instance's persisted record. -/
inductive CentreReachable : CProbe_CentreState → Prop where
  | constructed (base : CProbingState) (find : ℤ → Option CCuttingTool)
      (n : ℤ) : CentreReachable (CProbe_Centre.construct base find n)
  | copied {s : CProbe_CentreState} : CentreReachable s →
      CentreReachable (CProbe_Centre.makeACopy s)
  | readBack {s t : CProbe_CentreState} : CentreReachable s →
      CProbe_Centre.readFromXMLElement (CProbe_Centre.writeXML s) = some t →
      CentreReachable t

/-- The `CProbe_Edge` states an operation instance can be in: freshly
constructed, copied from a reachable instance, or read back from a reachable
instance's persisted record. -/
inductive EdgeReachable : CProbe_EdgeState → Prop where
  | constructed (base : CProbingState) (find : ℤ → Option CCuttingTool)
      (n : ℤ) : EdgeReachable (CProbe_Edge.construct base find n)
  | copied {s : CProbe_EdgeState} : EdgeReachable s →
      EdgeReachable (CProbe_Edge.makeACopy s)
  | readBack {s t : CProbe_EdgeState} : EdgeReachable s →
      CProbe_Edge.readFromXMLElement (CProbe_Edge.writeXML s) = some t →
      EdgeReachable t

/-! ## Helper lemmas -/

theorem mid_mid_eq_centroid4 (p1 p2 p3 p4 : CNCPoint) :
    (p1.mid p2).mid (p3.mid p4) = centroid4 p1 p2 p3 p4 := by
  cases p1; cases p2; cases p3; cases p4
  simp only [CNCPoint.mid, centroid4, CNCPoint.mk.injEq]
  refine ⟨by ring, by ring, by ring⟩

theorem fittedAngleDeg_range (p q : CNCPoint) :
    -90 ≤ fittedAngleDeg p q ∧ fittedAngleDeg p q < 90 := by
  unfold fittedAngleDeg
  split
  · norm_num
  · have hπ := Real.pi_pos
    have hc : (0:ℝ) < 180 / Real.pi := by positivity
    have h1 := Real.arctan_lt_pi_div_two
      (((q.y - p.y : ℚ) : ℝ) / ((q.x - p.x : ℚ) : ℝ))
    have h2 := Real.neg_pi_div_two_lt_arctan
      (((q.y - p.y : ℚ) : ℝ) / ((q.x - p.x : ℚ) : ℝ))
    have h90 : Real.pi / 2 * (180 / Real.pi) = 90 := by
      field_simp
      ring
    have hA := mul_lt_mul_of_pos_right h1 hc
    have hB := mul_lt_mul_of_pos_right h2 hc
    rw [h90] at hA
    have hneg : -(Real.pi / 2) * (180 / Real.pi) = -90 := by rw [neg_mul, h90]
    rw [hneg] at hB
    exact ⟨le_of_lt hB, hA⟩

/-! ## Claim theorems -/

/-- C1: For every input point sequence whose length matches the configured
`numberOfPoints`, `ReduceCentre` returns the midpoint of the two contact
points when `numberOfPoints = 2` and the centroid of the four contact points
when `numberOfPoints = 4`; in particular
`ReduceCentre((0,0,0),(10,0,0)) = (5,0,0)` and
`ReduceCentre((0,0,0),(10,0,0),(5,5,0),(5,-5,0)) = (5,0,0)`. -/
theorem reduceCentre_midpoint_centroid :
    (∀ p1 p2 : CNCPoint, ReduceCentre 2 [p1, p2] = .ok (p1.mid p2)) ∧
    (∀ p1 p2 p3 p4 : CNCPoint,
      ReduceCentre 4 [p1, p2, p3, p4] = .ok (centroid4 p1 p2 p3 p4)) ∧
    ReduceCentre 2 [⟨0, 0, 0⟩, ⟨10, 0, 0⟩] = .ok ⟨5, 0, 0⟩ ∧
    ReduceCentre 4 [⟨0, 0, 0⟩, ⟨10, 0, 0⟩, ⟨5, 5, 0⟩, ⟨5, -5, 0⟩] =
      .ok ⟨5, 0, 0⟩ := by
  refine ⟨fun p1 p2 => by simp [ReduceCentre],
          fun p1 p2 p3 p4 => by simp [ReduceCentre, mid_mid_eq_centroid4],
          ?_, ?_⟩
  · simp [ReduceCentre, CNCPoint.mid]
    norm_num
  · simp [ReduceCentre, CNCPoint.mid]
    norm_num

/-- C2: For every `ReduceEdge` call with `numberOfEdges = 2`, if the two
lines fitted through the two point-pairs are parallel within the configured
tolerance (the determinant of the 2×2 intersection system is within tolerance
of 0), `ReduceEdge` fails with `ParallelEdgesError` rather than returning an
approximated intersection point. -/
theorem reduceEdge_parallel_error (tolerance : ℚ) (p1 p2 p3 p4 : CNCPoint)
    (rest : List CNCPoint) (h : |lineDet p1 p2 p3 p4| ≤ tolerance) :
    ReduceEdge 2 tolerance (p1 :: p2 :: p3 :: p4 :: rest) =
      .error .parallelEdges := by
  simp [ReduceEdge, h]

/-- Witness for C2: two near-parallel fitted lines (y = 0 and a line of slope
1/1000 through (0,1)) whose determinant 1/100 is within the tolerance 1/100,
rejected as parallel. -/
theorem reduceEdge_parallel_error_witness :
    ReduceEdge 2 (1 / 100)
      [⟨0, 0, 0⟩, ⟨10, 0, 0⟩, ⟨0, 1, 0⟩, ⟨10, 1 + 1 / 1000, 0⟩] =
      .error .parallelEdges :=
  reduceEdge_parallel_error (1 / 100) ⟨0, 0, 0⟩ ⟨10, 0, 0⟩ ⟨0, 1, 0⟩
    ⟨10, 1 + 1 / 1000, 0⟩ [] (by norm_num [lineDet, abs_le])

/-- C3: `ReduceCentre` fails with `InsufficientPointsError` whenever the
supplied point count differs from the configured `numberOfPoints`, and
`ReduceEdge` fails with `InsufficientPointsError` when fewer than 2 points
(one edge) or fewer than 4 points (two edges) are supplied; in particular one
point where two are required is rejected. -/
theorem reduce_insufficient_points :
    (∀ (n : ℕ) (ps : List CNCPoint), ps.length ≠ n →
       ReduceCentre n ps = .error .insufficientPoints) ∧
    (∀ (tol : ℚ) (ps : List CNCPoint), ps.length < 2 →
       ReduceEdge 1 tol ps = .error .insufficientPoints) ∧
    (∀ (tol : ℚ) (ps : List CNCPoint), ps.length < 4 →
       ReduceEdge 2 tol ps = .error .insufficientPoints) ∧
    (∀ p : CNCPoint, ReduceCentre 2 [p] = .error .insufficientPoints) := by
  refine ⟨fun n ps h => by simp [ReduceCentre, h], ?_, ?_, ?_⟩
  · intro tol ps h
    rcases ps with _ | ⟨p, _ | ⟨q, rest⟩⟩
    · rfl
    · rfl
    · exact absurd h (by simp)
  · intro tol ps h
    rcases ps with _ | ⟨p1, _ | ⟨p2, _ | ⟨p3, _ | ⟨p4, rest⟩⟩⟩⟩
    · rfl
    · rfl
    · rfl
    · rfl
    · exact absurd h (by simp)
  · intro p
    simp [ReduceCentre]

/-- Witness for C3: one point where two are required, an empty contact list
for one-edge reduction, and three points for two-edge reduction, all
rejected with the insufficient-points error. -/
theorem reduce_insufficient_points_witness :
    ReduceCentre 2 [(⟨0, 0, 0⟩ : CNCPoint)] = .error .insufficientPoints ∧
    ReduceEdge 1 0 [] = .error .insufficientPoints ∧
    ReduceEdge 2 0 [⟨0, 0, 0⟩, ⟨1, 0, 0⟩, ⟨2, 0, 0⟩] =
      .error .insufficientPoints :=
  ⟨reduce_insufficient_points.1 2 [⟨0, 0, 0⟩] (by simp),
   reduce_insufficient_points.2.1 0 [] (by simp),
   reduce_insufficient_points.2.2.1 0 [⟨0, 0, 0⟩, ⟨1, 0, 0⟩, ⟨2, 0, 0⟩]
     (by simp)⟩

/-- C4 counterexample: probing the two perpendicular edges y = 0 (contacts
(0,0,0), (10,0,0)) and x = 10 (contacts (10,5,0), (10,-5,0)) does return the
intersection point (10,0), but the angle list is {0°, −90°}, not {0°, 90°} as
the claim's example asserts: 90° lies outside the normalized range
[-90°, 90°) the same claim requires, so the vertical edge is reported
as −90°. -/
theorem reduceEdge_perpendicular_counterexample :
    ReduceEdge 2 (1 / 1000000)
        [⟨0, 0, 0⟩, ⟨10, 0, 0⟩, ⟨10, 5, 0⟩, ⟨10, -5, 0⟩] =
      .ok ⟨[0, -90], some ⟨10, 0, 0⟩⟩ ∧
    ReduceEdge 2 (1 / 1000000)
        [⟨0, 0, 0⟩, ⟨10, 0, 0⟩, ⟨10, 5, 0⟩, ⟨10, -5, 0⟩] ≠
      .ok ⟨[0, 90], some ⟨10, 0, 0⟩⟩ := by
  have h1 : ReduceEdge 2 (1 / 1000000)
      [⟨0, 0, 0⟩, ⟨10, 0, 0⟩, ⟨10, 5, 0⟩, ⟨10, -5, 0⟩] =
      .ok ⟨[0, -90], some ⟨10, 0, 0⟩⟩ := by
    norm_num [ReduceEdge, lineDet, fittedAngleDeg, lineIntersect]
  refine ⟨h1, fun h2 => ?_⟩
  have h3 := h1.symm.trans h2
  simp [EdgeResult.mk.injEq] at h3
  norm_num at h3

/-- C4 (amended): every angle returned by a successful `ReduceEdge` lies in
the normalized half-open range [-90°, 90°); the single edge through (0,0,0)
and (10,0,0) is fitted at 0°, and the two perpendicular edges forming the
lines y = 0 and x = 10 reduce to the intersection point (10,0) with angle
list {0°, −90°} — the vertical edge reporting −90°, since 90° is outside the
normalized range. -/
theorem reduceEdge_angle_range :
    (∀ (n : ℕ) (tol : ℚ) (ps : List CNCPoint) (r : EdgeResult),
       ReduceEdge n tol ps = .ok r → ∀ a ∈ r.angles, -90 ≤ a ∧ a < 90) ∧
    ReduceEdge 1 0 [⟨0, 0, 0⟩, ⟨10, 0, 0⟩] = .ok ⟨[0], none⟩ ∧
    ReduceEdge 2 (1 / 1000000)
        [⟨0, 0, 0⟩, ⟨10, 0, 0⟩, ⟨10, 5, 0⟩, ⟨10, -5, 0⟩] =
      .ok ⟨[0, -90], some ⟨10, 0, 0⟩⟩ := by
  refine ⟨?_, by norm_num [ReduceEdge, fittedAngleDeg],
          by norm_num [ReduceEdge, lineDet, fittedAngleDeg, lineIntersect]⟩
  intro n tol ps r h a ha
  rcases n with _ | _ | _ | n
  · simp [ReduceEdge] at h
  · rcases ps with _ | ⟨p1, _ | ⟨p2, rest⟩⟩
    · simp [ReduceEdge] at h
    · simp [ReduceEdge] at h
    · simp [ReduceEdge] at h
      subst h
      simp at ha
      subst ha
      exact fittedAngleDeg_range p1 p2
  · rcases ps with _ | ⟨p1, _ | ⟨p2, _ | ⟨p3, _ | ⟨p4, rest⟩⟩⟩⟩
    · simp [ReduceEdge] at h
    · simp [ReduceEdge] at h
    · simp [ReduceEdge] at h
    · simp [ReduceEdge] at h
    · rcases le_or_lt |lineDet p1 p2 p3 p4| tol with hle | hlt
      · simp [ReduceEdge, hle] at h
      · simp [ReduceEdge, not_le.2 hlt] at h
        subst h
        simp at ha
        rcases ha with ha | ha <;> subst ha
        · exact fittedAngleDeg_range p1 p2
        · exact fittedAngleDeg_range p3 p4
  · simp [ReduceEdge] at h

/-- Witness for C4 (amended): the fitted angle of the single edge through
(0,0,0) and (10,0,0), namely 0°, lies in the normalized range. -/
theorem reduceEdge_angle_range_witness : -90 ≤ (0 : ℝ) ∧ (0 : ℝ) < 90 :=
  reduceEdge_angle_range.1 1 0 [⟨0, 0, 0⟩, ⟨10, 0, 0⟩] ⟨[0], none⟩
    (by norm_num [ReduceEdge, fittedAngleDeg]) 0 (by simp)

theorem centre_writeXML_roundTrip (s : CProbe_CentreState) :
    CProbe_Centre.readFromXMLElement (CProbe_Centre.writeXML s) = some s := by
  cases s with
  | mk probing dir n => cases probing; rfl

theorem edge_writeXML_roundTrip (s : CProbe_EdgeState) :
    CProbe_Edge.readFromXMLElement (CProbe_Edge.writeXML s) = some s := by
  cases s with
  | mk probing r n e c =>
    cases probing
    cases e <;> cases c <;> rfl

/-- C5: `m_number_of_points ∈ {2, 4}` and `m_number_of_edges ∈ {1, 2}` are
invariants of every reachable probing operation state: each centre-probing
instance is constructed with 2 points and each edge-probing instance with
2 edges, and neither copying nor persisting-and-reloading an instance moves
these fields outside their valid sets. -/
theorem probe_count_invariants :
    (∀ s : CProbe_CentreState, CentreReachable s →
       s.m_number_of_points = 2 ∨ s.m_number_of_points = 4) ∧
    (∀ s : CProbe_EdgeState, EdgeReachable s →
       s.m_number_of_edges = 1 ∨ s.m_number_of_edges = 2) := by
  constructor
  · intro s h
    induction h with
    | constructed base find n => exact Or.inl rfl
    | copied _ ih => exact ih
    | readBack _ hread ih =>
        rw [centre_writeXML_roundTrip] at hread
        cases hread
        exact ih
  · intro s h
    induction h with
    | constructed base find n => exact Or.inr rfl
    | copied _ ih => exact ih
    | readBack _ hread ih =>
        rw [edge_writeXML_roundTrip] at hread
        cases hread
        exact ih

/-- Witness for C5: a freshly constructed centre-probing instance holds a
valid point count and a freshly constructed edge-probing instance holds a
valid edge count. -/
theorem probe_count_invariants_witness :
    ((CProbe_Centre.construct ⟨0, 0, 0, 0⟩ (fun _ => none) 0).m_number_of_points = 2 ∨
     (CProbe_Centre.construct ⟨0, 0, 0, 0⟩ (fun _ => none) 0).m_number_of_points = 4) ∧
    ((CProbe_Edge.construct ⟨0, 0, 0, 0⟩ (fun _ => none) 0).m_number_of_edges = 1 ∨
     (CProbe_Edge.construct ⟨0, 0, 0, 0⟩ (fun _ => none) 0).m_number_of_edges = 2) :=
  ⟨probe_count_invariants.1 _ (CentreReachable.constructed ⟨0, 0, 0, 0⟩ (fun _ => none) 0),
   probe_count_invariants.2 _ (EdgeReachable.constructed ⟨0, 0, 0, 0⟩ (fun _ => none) 0)⟩

/-- C6: For every valid centre-probing configuration (2 or 4 points), run
with positive start distance and nonnegative depth, and current position,
`PlanCentreProbe` returns exactly `4 × numberOfPoints` waypoints, and each
probe approach consists, in deterministic order, of an outward rapid move by
`startDistance`, a plunge to `currentZ − depth`, an inward linear probe move
back toward the centre — its direction reversed when the configured probing
direction is `Inside` — and a retract. -/
theorem planCentreProbe_structure (cfg : ProbeCentreConfig) (run : ProbingRun)
    (pos : CNCPoint) (hn : cfg.numberOfPoints = 2 ∨ cfg.numberOfPoints = 4)
    (hs : 0 < run.startDistance) (hd : 0 ≤ run.depth) :
    (PlanCentreProbe cfg run pos).length = 4 * cfg.numberOfPoints ∧
    ∀ i, i < cfg.numberOfPoints →
      ∃ out probeTarget : CNCPoint,
        ((PlanCentreProbe cfg run pos).drop (4 * i)).take 4 =
          [Waypoint.rapidOut out,
           Waypoint.plunge ⟨out.x, out.y, pos.z - run.depth⟩,
           Waypoint.probe probeTarget,
           Waypoint.retract out] ∧
        out.z = pos.z ∧
        (out.x - pos.x) ^ 2 + (out.y - pos.y) ^ 2 = run.startDistance ^ 2 ∧
        probeTarget =
          (if cfg.direction = eProbeDirection_t.eInside then
            (⟨2 * out.x - pos.x, 2 * out.y - pos.y, pos.z - run.depth⟩ : CNCPoint)
          else ⟨pos.x, pos.y, pos.z - run.depth⟩) := by
  have step : ∀ d1 d2 : ℚ,
      (if cfg.direction = eProbeDirection_t.eInside then
        (⟨pos.x + 2 * run.startDistance * d1, pos.y + 2 * run.startDistance * d2,
          pos.z - run.depth⟩ : CNCPoint)
      else ⟨pos.x, pos.y, pos.z - run.depth⟩) =
      (if cfg.direction = eProbeDirection_t.eInside then
        (⟨2 * (pos.x + run.startDistance * d1) - pos.x,
          2 * (pos.y + run.startDistance * d2) - pos.y, pos.z - run.depth⟩ : CNCPoint)
      else ⟨pos.x, pos.y, pos.z - run.depth⟩) := by
    intro d1 d2
    split
    · simp [CNCPoint.mk.injEq]
      constructor <;> ring
    · rfl
  rcases hn with hn | hn
  · refine ⟨by simp [PlanCentreProbe, hn, approachDirs, probeApproach], ?_⟩
    intro i hi
    rw [hn] at hi
    interval_cases i
    · exact ⟨⟨pos.x + run.startDistance * 1, pos.y + run.startDistance * 0, pos.z⟩, _,
        by simp [PlanCentreProbe, hn, approachDirs, probeApproach], rfl, by ring, step 1 0⟩
    · exact ⟨⟨pos.x + run.startDistance * (-1), pos.y + run.startDistance * 0, pos.z⟩, _,
        by simp [PlanCentreProbe, hn, approachDirs, probeApproach], rfl, by ring, step (-1) 0⟩
  · refine ⟨by simp [PlanCentreProbe, hn, approachDirs, probeApproach], ?_⟩
    intro i hi
    rw [hn] at hi
    interval_cases i
    · exact ⟨⟨pos.x + run.startDistance * 1, pos.y + run.startDistance * 0, pos.z⟩, _,
        by simp [PlanCentreProbe, hn, approachDirs, probeApproach], rfl, by ring, step 1 0⟩
    · exact ⟨⟨pos.x + run.startDistance * (-1), pos.y + run.startDistance * 0, pos.z⟩, _,
        by simp [PlanCentreProbe, hn, approachDirs, probeApproach], rfl, by ring, step (-1) 0⟩
    · exact ⟨⟨pos.x + run.startDistance * 0, pos.y + run.startDistance * 1, pos.z⟩, _,
        by simp [PlanCentreProbe, hn, approachDirs, probeApproach], rfl, by ring, step 0 1⟩
    · exact ⟨⟨pos.x + run.startDistance * 0, pos.y + run.startDistance * (-1), pos.z⟩, _,
        by simp [PlanCentreProbe, hn, approachDirs, probeApproach], rfl, by ring, step 0 (-1)⟩

/-- Witness for C6: a 2-point outside centre probe from the origin with start
distance 10 and depth 3 plans exactly 8 waypoints. -/
theorem planCentreProbe_structure_witness :
    (PlanCentreProbe ⟨eProbeDirection_t.eOutside, 2⟩ ⟨3, 10, 5⟩ ⟨0, 0, 0⟩).length = 4 * 2 :=
  (planCentreProbe_structure ⟨eProbeDirection_t.eOutside, 2⟩ ⟨3, 10, 5⟩ ⟨0, 0, 0⟩
    (Or.inl rfl) (by norm_num) (by norm_num)).1

/-- C7: `ReduceCentre` and `ReduceEdge` are deterministic pure functions:
run twice against any ambient engine state with identical inputs, the two
calls yield identical outputs, and neither call reads or changes the state
it runs in. -/
theorem reduce_deterministic_pure (S : Type) (state : S) (numberOfPoints : ℕ)
    (points : List CNCPoint) (numberOfEdges : ℕ) (tolerance : ℚ)
    (edgePoints : List CNCPoint) :
    (ReduceCentreWithState state numberOfPoints points).1 =
      (ReduceCentreWithState
        (ReduceCentreWithState state numberOfPoints points).2
        numberOfPoints points).1 ∧
    (ReduceCentreWithState state numberOfPoints points).2 = state ∧
    (ReduceEdgeWithState state numberOfEdges tolerance edgePoints).1 =
      (ReduceEdgeWithState
        (ReduceEdgeWithState state numberOfEdges tolerance edgePoints).2
        numberOfEdges tolerance edgePoints).1 ∧
    (ReduceEdgeWithState state numberOfEdges tolerance edgePoints).2 = state :=
  ⟨rfl, rfl, rfl, rfl⟩

/-- C8: serializing then deserializing any `ProbeCentreConfig`,
`ProbeEdgeConfig` or `ProbingRun` yields the original value, round-tripping
every data-model field (direction, numberOfPoints, retractDistance,
numberOfEdges, edge, corner, depth, startDistance, feedRate) losslessly. -/
theorem config_serialization_roundTrip :
    (∀ c : ProbeCentreConfig,
       deserializeCentreConfig (serializeCentreConfig c) = some c) ∧
    (∀ c : ProbeEdgeConfig,
       deserializeEdgeConfig (serializeEdgeConfig c) = some c) ∧
    (∀ r : ProbingRun,
       deserializeProbingRun (serializeProbingRun r) = some r) := by
  refine ⟨?_, ?_, ?_⟩
  · rintro ⟨dir, n⟩
    cases dir <;> rfl
  · rintro ⟨r, n, e, c⟩
    cases e <;> cases c <;> rfl
  · rintro ⟨d, s, f⟩
    rfl

/-- C9: immediately after construction, every probing operation has spindle
speed 0 and active flag 0 — regardless of the state the base-class
constructor left, of the title, of the tool lookup, and of the cutting tool
number — so a probing operation never commands spindle rotation and is never
picked up by the normal G-code generation pass. -/
theorem cprobing_construct_inactive (base : CProbingState)
    (find : ℤ → Option CCuttingTool) (title : String)
    (cutting_tool_number : ℤ) :
    (CProbing.construct base find title cutting_tool_number).m_spindle_speed = 0 ∧
    (CProbing.construct base find title cutting_tool_number).m_active = 0 ∧
    (CProbe_Centre.construct base find cutting_tool_number).probing.m_spindle_speed = 0 ∧
    (CProbe_Centre.construct base find cutting_tool_number).probing.m_active = 0 ∧
    (CProbe_Edge.construct base find cutting_tool_number).probing.m_spindle_speed = 0 ∧
    (CProbe_Edge.construct base find cutting_tool_number).probing.m_active = 0 := by
  have h : ∀ t : String,
      (CProbing.construct base find t cutting_tool_number).m_spindle_speed = 0 ∧
      (CProbing.construct base find t cutting_tool_number).m_active = 0 := by
    intro t
    unfold CProbing.construct
    cases find cutting_tool_number with
    | none => exact ⟨rfl, rfl⟩
    | some tool =>
        by_cases hp : tool.m_type = eToolType.eTouchProbe <;> simp [hp]
  exact ⟨(h title).1, (h title).2,
         (h "Probe Centre").1, (h "Probe Centre").2,
         (h "Probe Edge").1, (h "Probe Edge").2⟩

/-- C10: the constructed probing operation's default plunge depth is half the
tool length offset when the cutting tool number resolves to a touch-probe
tool, and 10.0 mm when no tool is found or the tool is not a touch probe; the
default outward distance is 50.0 mm in every case. -/
theorem cprobing_construct_depth (base : CProbingState)
    (find : ℤ → Option CCuttingTool) (title : String)
    (cutting_tool_number : ℤ) :
    (CProbing.construct base find title cutting_tool_number).m_distance = 50 ∧
    (∀ t : CCuttingTool, find cutting_tool_number = some t →
       t.m_type = eToolType.eTouchProbe →
       (CProbing.construct base find title cutting_tool_number).m_depth =
         t.m_tool_length_offset / 2) ∧
    (find cutting_tool_number = none →
       (CProbing.construct base find title cutting_tool_number).m_depth = 10) ∧
    (∀ t : CCuttingTool, find cutting_tool_number = some t →
       t.m_type ≠ eToolType.eTouchProbe →
       (CProbing.construct base find title cutting_tool_number).m_depth = 10) := by
  refine ⟨?_, ?_, ?_, ?_⟩
  · unfold CProbing.construct
    cases find cutting_tool_number with
    | none => rfl
    | some tool =>
        by_cases hp : tool.m_type = eToolType.eTouchProbe <;> simp [hp]
  · intro t ht hp
    unfold CProbing.construct
    rw [ht]
    simp [hp]
  · intro ht
    unfold CProbing.construct
    rw [ht]
  · intro t ht hp
    unfold CProbing.construct
    rw [ht]
    simp [hp]

/-- Witness for C10: a lookup resolving tool 3 to a touch probe with length
offset 7 gives depth 7/2; a lookup finding nothing gives depth 10; a lookup
resolving to a drill gives depth 10. -/
theorem cprobing_construct_depth_witness :
    (CProbing.construct ⟨0, 0, 0, 0⟩
      (fun _ => some ⟨eToolType.eTouchProbe, 7⟩) "Probe Centre" 3).m_depth = 7 / 2 ∧
    (CProbing.construct ⟨0, 0, 0, 0⟩ (fun _ => none) "Probe Centre" 3).m_depth = 10 ∧
    (CProbing.construct ⟨0, 0, 0, 0⟩
      (fun _ => some ⟨eToolType.eDrill, 7⟩) "Probe Centre" 3).m_depth = 10 :=
  ⟨(cprobing_construct_depth ⟨0, 0, 0, 0⟩
      (fun _ => some ⟨eToolType.eTouchProbe, 7⟩) "Probe Centre" 3).2.1
      ⟨eToolType.eTouchProbe, 7⟩ rfl rfl,
   (cprobing_construct_depth ⟨0, 0, 0, 0⟩
      (fun _ => none) "Probe Centre" 3).2.2.1 rfl,
   (cprobing_construct_depth ⟨0, 0, 0, 0⟩
      (fun _ => some ⟨eToolType.eDrill, 7⟩) "Probe Centre" 3).2.2.2
      ⟨eToolType.eDrill, 7⟩ rfl (by simp)⟩

end HeeksProbing
